import Mathlib

/-!
Verification of the PywerMeter test-run/report-accumulation engine.

The definitions below are shallow embeddings of the Python sources:
* `pywerHelper/serialComm.py`  — `SerialDevice.query` (byte responses, hex/ascii decoding)
* `pywerHelper/dataCollector.py` — `readSerialData`, `serialFunction` (the Sampler loop)
* `pywerMeter.py` — `parse_time_value` and the per-test run guard of `run_power_tests`
* `pywerHelper/excelHelper.py` — `write_test_row_to_excel` (the Report Store) and
  `PowerCalc.add_averages` / `PowerCalc.totalAnnualPower` (the Report Calculator)

Machine floats of the source are modelled as rationals; spreadsheet formulas are
modelled structurally (the cell stores the formula's shape, an evaluator gives the
value Excel would display); I/O failures that depend only on the environment
(permission errors and the like) are outside the state model.
-/

/-! ### Python `str.strip` (used by `SerialDevice.query` on the decoded response) -/

/-- The characters Python's default `str.strip()` removes. -/
def isPySpace (c : Char) : Bool :=
  c == ' ' || c == '\t' || c == '\n' || c == '\r' || c == '\x0b' || c == '\x0c'

/-- Python `str.strip()` on the underlying character list: drop `isPySpace`
characters from both ends. -/
def pyStripList (l : List Char) : List Char :=
  (l.dropWhile isPySpace).rdropWhile isPySpace

/-- Python `str.strip()`. -/
def pyStrip (s : String) : String :=
  ⟨pyStripList s.data⟩

/-! ### Device channel: `SerialDevice.query` (`serialComm.py`) and
`readSerialData` / `serialFunction` (`dataCollector.py`) -/

/-- `bytes.decode(errors='ignore')` restricted to the ASCII range: bytes below
128 become characters, the rest are dropped (the instrument speaks ASCII). -/
def decodeBytes (bs : List Nat) : String :=
  String.mk (bs.filterMap (fun b => if b < 128 then some (Char.ofNat b) else none))

/-- One lowercase hexadecimal digit, as produced by Python's `bytes.hex()`. -/
def hexDigit (n : Nat) : Char :=
  if n < 10 then Char.ofNat (48 + n) else Char.ofNat (87 + n)

/-- Two-digit lowercase hex rendering of one byte. -/
def hexPairStr (b : Nat) : String :=
  String.mk [hexDigit (b / 16 % 16), hexDigit (b % 16)]

/-- The spaced hex string `SerialDevice.query` builds from the raw response. -/
def spacedHex (bs : List Nat) : String :=
  String.intercalate " " (bs.map hexPairStr)

/-- `SerialDevice.query` (serialComm.py lines 146-198), given the byte string the
device answered with.  An empty read returns `none`, modelling the
`(None, None, None)` failure triple; otherwise the triple is the raw bytes, the
spaced hex string, and the stripped ASCII decoding.  The serial-exception paths
of the source also yield the failure triple and are folded into the `none` input
of `readSerialData` below. -/
def SerialDevice_query (response : List Nat) : Option (List Nat × String × String) :=
  if response.isEmpty then none
  else some (response, spacedHex response, pyStrip (decodeBytes response))

/-- `readSerialData` (dataCollector.py lines 41-69): forwards the query result,
turning every caught exception into the `(None, None, None)` triple.  The input
`none` stands for a raised-and-caught communication error, `some bs` for a
completed read of bytes `bs`. -/
def readSerialData (resp : Option (List Nat)) : Option (List Nat × String × String) :=
  resp.bind SerialDevice_query

/-- How the sampling loop of `serialFunction` terminates: the timed loop runs to
its end time, or a `KeyboardInterrupt` / unexpected exception stops it after
`k` completed iterations. -/
inductive RunExit where
  | normal : RunExit
  | interrupted (k : Nat) : RunExit
  | errored (k : Nat) : RunExit
deriving DecidableEq

/-- The queries the loop actually processed before exiting. -/
def processedQueries (qs : List (Option (List Nat))) : RunExit → List (Option (List Nat))
  | RunExit.normal => qs
  | RunExit.interrupted k => qs.take k
  | RunExit.errored k => qs.take k

/-- The sample a single loop iteration appends, if any: the trimmed ASCII text
when the query succeeded and the text is non-empty (`if retAsciiData:`). -/
def sampleOf (r : Option (List Nat)) : Option String :=
  match readSerialData r with
  | some t => if t.2.2 ≠ "" then some t.2.2 else none
  | none => none

/-- `serialFunction` (dataCollector.py lines 72-172) with the device opened.
`qs` lists the per-iteration device responses; `ex` is the exit path.  The
result pairs the collected samples with the number of times the `finally`
block closed the channel.  `openOk = false` models `initSerialDevice`
returning `None`: the function returns `[]` before the channel exists. -/
def serialFunction (openOk : Bool) (qs : List (Option (List Nat))) (ex : RunExit) :
    List String × Nat :=
  if openOk then
    ((processedQueries qs ex).foldl
      (fun acc r =>
        match sampleOf r with
        | some s => acc ++ [s]
        | none => acc) [], 1)
  else ([], 0)

/-! ### `parse_time_value` and the per-test run guard (`pywerMeter.py`) -/

/-- A value read from the YAML configuration, as `parse_time_value` classifies it
with `isinstance`: an int, a float, a string, or anything else. -/
inductive TimeValue where
  | int (n : Int) : TimeValue
  | float (q : ℚ) : TimeValue
  | str (s : String) : TimeValue
  | other : TimeValue
deriving DecidableEq

/-- `value.split(':')` on the character list: standard split, keeping empty parts. -/
def splitOnColon : List Char → List (List Char)
  | [] => [[]]
  | c :: rest =>
    if c = ':' then [] :: splitOnColon rest
    else
      match splitOnColon rest with
      | [] => [[c]]
      | p :: ps => (c :: p) :: ps

/-- `':' in value`. -/
def containsColon (l : List Char) : Bool :=
  l.any (fun c => c == ':')

/-- All characters are decimal digits and there is at least one. -/
def allDigits (l : List Char) : Bool :=
  !l.isEmpty && l.all (fun c => c.isDigit)

/-- Value of a digit string. -/
def digitsToNat (l : List Char) : Nat :=
  l.foldl (fun a c => a * 10 + (c.toNat - 48)) 0

/-- Python `int(str)`: surrounding whitespace stripped, optional sign, digits;
anything else raises `ValueError`, modelled as `none`. -/
def parsePyInt (l : List Char) : Option Int :=
  match pyStripList l with
  | '-' :: rest => if allDigits rest then some (-(digitsToNat rest : Int)) else none
  | '+' :: rest => if allDigits rest then some (digitsToNat rest : Int) else none
  | rest => if allDigits rest then some (digitsToNat rest : Int) else none

/-- `parse_time_value` (pywerMeter.py lines 241-261).  Returns the minutes value
together with a flag recording whether the warning branch printed (`true` means
the input was unrecognized and 0 was returned). -/
def parse_time_value : TimeValue → ℚ × Bool
  | TimeValue.int n => ((n : ℚ), false)
  | TimeValue.float q => (q, false)
  | TimeValue.str s =>
    if containsColon s.data then
      match splitOnColon s.data with
      | [p0, p1] =>
        match parsePyInt p0, parsePyInt p1 with
        | some m, some sec => ((m : ℚ) + (sec : ℚ) / 60, false)
        | _, _ => (0, true)
      | _ => (0, true)
    else (0, true)
  | TimeValue.other => (0, true)

/-- The per-test guard of `run_power_tests` (pywerMeter.py lines 88-98): the test
is run when `test_header and start_time is not None and duration` is truthy,
where `start_time`/`duration` are `parse_time_value` of the raw fields when
present and `None` otherwise; otherwise the test is skipped with a
"Missing configuration" warning. -/
def shouldRunTest (test_header : Option String) (start_raw duration_raw : Option TimeValue) :
    Bool :=
  let start_time := start_raw.map (fun v => (parse_time_value v).1)
  let duration := duration_raw.map (fun v => (parse_time_value v).1)
  (match test_header with
   | some h => h ≠ ""
   | none => false)
  && start_time.isSome
  && (match duration with
      | some d => d ≠ 0
      | none => false)

/-! ### Report Store: `write_test_row_to_excel` (`excelHelper.py` lines 188-273) -/

/-- One sample string, classified by whether `pd.to_numeric(..., errors='coerce')`
parses it: `num q` is a token parsing to the number `q`, `text s` a token that
coerces to the missing-value marker `NaN`. -/
inductive Sample where
  | num (q : ℚ) : Sample
  | text (s : String) : Sample
deriving DecidableEq

/-- `pd.to_numeric(samples, errors='coerce')` on one token (`NaN` is `none`). -/
def toNumeric : Sample → Option ℚ
  | Sample.num q => some q
  | Sample.text _ => none

/-- A pandas DataFrame as read from / written to one sheet: the index length and
the named columns.  A `none` cell is a missing value (`NaN` or blank filler). -/
structure DF where
  nrows : Nat
  cols : List (String × List (Option ℚ))
deriving DecidableEq

/-- The on-disk workbook: named sheets in order. -/
abbrev Workbook := List (String × DF)

/-- `pd.read_excel(filename, sheet_name=...)`: the sheet's frame, or `none` when
the sheet does not exist (the `FileNotFoundError` / `ValueError` the code catches). -/
def lookupSheet (wb : Workbook) (name : String) : Option DF :=
  (wb.find? (fun p => p.1 == name)).map (fun p => p.2)

/-- `pd.concat([existing_df, empty_rows])`: append `k` blank filler rows. -/
def extendRows (df : DF) (k : Nat) : DF :=
  ⟨df.nrows + k, df.cols.map (fun c => (c.1, c.2 ++ List.replicate k (none : Option ℚ)))⟩

/-- `existing_df[test_header] = numeric_samples`: replace the column in place if
the name exists, else append it after the last column.  The caller has already
checked that `vals` matches the index length. -/
def setColumn (df : DF) (name : String) (vals : List (Option ℚ)) : DF :=
  if df.cols.any (fun c => c.1 == name) then
    ⟨df.nrows, df.cols.map (fun c => if c.1 == name then (name, vals) else c)⟩
  else ⟨df.nrows, df.cols ++ [(name, vals)]⟩

/-- `write_test_row_to_excel` (excelHelper.py lines 188-273).  `wb = none` models
a workbook file that does not exist yet.  Mirrors the source: coerce the samples
to numerics; if the target sheet exists, read it, pad it with blank rows when the
new run is longer, then assign the column — a pandas length-mismatch on the
assignment raises `ValueError`, which the source's `except ValueError` branch
answers by building a fresh single-column frame; finally the workbook is
rewritten with `mode='w'`, so it ends up containing exactly the one sheet
written.  Environment-only failures (permission errors) are not modelled, so
the success flag of the embedding is always `true`. -/
def write_test_row_to_excel (test_header : String) (samples : List Sample)
    (wb : Option Workbook) (sheet_name : String) : Workbook × Bool :=
  let numeric_samples := samples.map toNumeric
  let updated_df : DF :=
    match wb with
    | none => ⟨numeric_samples.length, [(test_header, numeric_samples)]⟩
    | some sheets =>
      match lookupSheet sheets sheet_name with
      | none => ⟨numeric_samples.length, [(test_header, numeric_samples)]⟩
      | some existing_df =>
        let df1 := if existing_df.nrows < samples.length
          then extendRows existing_df (samples.length - existing_df.nrows)
          else existing_df
        if numeric_samples.length = df1.nrows then setColumn df1 test_header numeric_samples
        else ⟨numeric_samples.length, [(test_header, numeric_samples)]⟩
  ([(sheet_name, updated_df)], true)

/-! ### Report Calculator: the worksheet grid and `PowerCalc`
(`excelHelper.py` lines 275-587) -/

/-- One worksheet cell.  Formula cells are stored structurally: `avgFormula c a b`
is the string `=AVERAGE({col c}{a}:{col c}{b})` and
`tapFormula o sl li si` is
`=8760/1000*({o}2*0.15+{sl}2*0.45+{li}2*0.1+{si}2*0.3)`, recording the column
index paired with each weight in the order the source builds the string. -/
inductive Cell where
  | empty : Cell
  | str (s : String) : Cell
  | num (q : ℚ) : Cell
  | avgFormula (col fromRow toRow : Nat) : Cell
  | tapFormula (offCol sleepCol longidleCol shortidleCol : Nat) : Cell
deriving DecidableEq

/-- A worksheet: rows of cells, possibly ragged (absent cells are `Cell.empty`). -/
abbrev Sheet := List (List Cell)

/-- List element at an index with a default (the cell grid is sparse). -/
def getIdx {α : Type} (l : List α) (i : Nat) (d : α) : α :=
  match l, i with
  | [], _ => d
  | a :: _, 0 => a
  | _ :: t, i + 1 => getIdx t i d

/-- Pad a list with the default up to length `n`. -/
def padTo {α : Type} (l : List α) (n : Nat) (d : α) : List α :=
  l ++ List.replicate (n - l.length) d

/-- `ws['{col}{row}'].value` with 1-based row and column indices. -/
def getCell (s : Sheet) (r c : Nat) : Cell :=
  getIdx (getIdx s (r - 1) []) (c - 1) Cell.empty

/-- Write one cell of a row, padding the row when the cell is past its end. -/
def setRow (row : List Cell) (c : Nat) (v : Cell) : List Cell :=
  (padTo row c Cell.empty).set (c - 1) v

/-- `ws['{col}{row}'] = v` with 1-based indices, padding the grid as needed. -/
def setCell (s : Sheet) (r c : Nat) (v : Cell) : Sheet :=
  let s1 := padTo s r []
  s1.set (r - 1) (setRow (getIdx s1 (r - 1) []) c v)

/-- The pandas view `PowerCalc._load_workbook` builds (excelHelper.py lines
295-357): the header row (`df.columns`) and the data rows (`df`).  When
`ws['A1']` holds the `Averages` marker, row 3 is the header and rows 4+ the
data, otherwise row 1 and rows 2+.  A frame with no rows or no columns is
`df.empty`, making the load fail. -/
structure LoadResult where
  headerRow : List Cell
  dataRows : List (List Cell)
deriving DecidableEq

/-- `PowerCalc._load_workbook` on a sheet that exists. -/
def loadSheet (s : Sheet) : Option LoadResult :=
  let hdrIdx : Nat := if getCell s 1 1 = Cell.str "Averages" then 2 else 0
  let headerRow := getIdx s hdrIdx []
  let dataRows := s.drop (hdrIdx + 1)
  if headerRow = [] ∨ dataRows = [] then none
  else some ⟨headerRow, dataRows⟩

/-- The loop of `add_averages` writing one `AVERAGE` formula per data column
into row 2. -/
def writeAvgRow (s : Sheet) (cols : List Nat) (lastRow : Nat) : Sheet :=
  cols.foldl (fun acc c => setCell acc 2 c (Cell.avgFormula c 4 lastRow)) s

/-- `PowerCalc.add_averages` (excelHelper.py lines 385-473).  Load the sheet; a
pre-existing `Averages` marker in `A1` short-circuits with success and no
change; otherwise insert two rows at the top, write the spanning `Averages`
title into `A1` (the merge and styling are layout only), and write
`=AVERAGE({col}4:{col}{last_data_row+2})` into row 2 of every data column,
where `last_data_row = len(df) + 1`. -/
def add_averages (s : Sheet) : Sheet × Bool :=
  match loadSheet s with
  | none => (s, false)
  | some lr =>
    if getCell s 1 1 = Cell.str "Averages" then (s, true)
    else
      let lastDataRow := lr.dataRows.length + 1
      let s1 := setCell ([[], []] ++ s) 1 1 (Cell.str "Averages")
      let s2 := writeAvgRow s1 ((List.range lr.headerRow.length).map (fun i => i + 1))
        (lastDataRow + 2)
      (s2, true)

/-- `str(col_name).lower().replace(' ', '')` on a header cell: lowercase every
character, then delete the spaces.  Headers written by the Report Store are
strings; a non-string header cell never matches any of the four required
names, so it normalizes to a name no required column has. -/
def normalizeHeader : Cell → String
  | Cell.str s => ⟨(s.data.map Char.toLower).filter (fun c => !(c == ' '))⟩
  | _ => ""

/-- The required column names, in the source's order. -/
def tapNeeded : List String := ["off", "shortidle", "longidle", "sleep"]

/-- The `column_positions` dict lookup: the 1-based index of the last header
cell whose normalized name equals `n` (a later duplicate overwrites an earlier
dict entry), or `none`. -/
def findColPos (headers : List Cell) (n : String) : Option Nat :=
  (List.range headers.length).foldl
    (fun acc i =>
      if normalizeHeader (getIdx headers i Cell.empty) = n then some (i + 1) else acc)
    none

/-- `ws.max_column`. -/
def maxCol (s : Sheet) : Nat :=
  s.foldr (fun row m => max row.length m) 0

/-- The scan of row 1 for an existing `Total Annual Power` header (first hit). -/
def findTapCol (s : Sheet) : Option Nat :=
  (List.range (maxCol s)).findSome?
    (fun i => if getCell s 1 (i + 1) = Cell.str "Total Annual Power" then some (i + 1) else none)

/-- Outcome of `PowerCalc.totalAnnualPower`, separating the reported failure
modes: load failure, missing required columns (with the reported list), and the
averages-first precondition. -/
inductive TapResult where
  | ok : TapResult
  | loadFail : TapResult
  | missingCols (missing : List String) : TapResult
  | noAverages : TapResult
deriving DecidableEq

/-- `PowerCalc.totalAnnualPower` (excelHelper.py lines 475-587).  Load the
sheet; locate the four required columns among the normalized headers (missing
ones are reported and nothing is changed); require the `Averages` marker in
`A1`; then write the `Total Annual Power` header into row 1 of the existing
column of that name or of a fresh column after the last data column, and write
the formula
`=8760/1000*({off}2*0.15+{sleep}2*0.45+{longidle}2*0.1+{shortidle}2*0.3)`
into row 2 — the column/weight pairing of source line 567. -/
def totalAnnualPower (s : Sheet) : Sheet × TapResult :=
  match loadSheet s with
  | none => (s, TapResult.loadFail)
  | some lr =>
    match findColPos lr.headerRow "off", findColPos lr.headerRow "shortidle",
        findColPos lr.headerRow "longidle", findColPos lr.headerRow "sleep" with
    | some offC, some siC, some liC, some slC =>
      if getCell s 1 1 = Cell.str "Averages" then
        let tapC := (findTapCol s).getD (lr.headerRow.length + 1)
        let s1 := setCell s 1 tapC (Cell.str "Total Annual Power")
        let s2 := setCell s1 2 tapC (Cell.tapFormula offC slC liC siC)
        (s2, TapResult.ok)
      else (s, TapResult.noAverages)
    | _, _, _, _ =>
      (s, TapResult.missingCols
        (tapNeeded.filter (fun n => (findColPos lr.headerRow n).isNone)))

/-! ### Evaluating formula cells the way Excel displays them -/

/-- The numeric content of a cell (`AVERAGE` ignores text and blanks). -/
def cellNum : Cell → Option ℚ
  | Cell.num q => some q
  | _ => none

/-- The numeric value a cell reference yields in a formula (0 for non-numbers,
enough for the references the written formulas make). -/
def refValue (s : Sheet) (r c : Nat) : ℚ :=
  match getCell s r c with
  | Cell.num q => q
  | _ => 0

/-- The cells of column `c` in rows `fromR..toR`. -/
def colCells (s : Sheet) (c fromR toR : Nat) : List Cell :=
  (List.range (toR + 1 - fromR)).map (fun i => getCell s (fromR + i) c)

/-- Arithmetic mean of a list of rationals (0 on the empty list, where Excel
shows a `#DIV/0!` error instead of a number). -/
def meanQ (l : List ℚ) : ℚ :=
  if l = [] then 0 else l.sum / l.length

/-- Value of the cell at `(r, c)` when it holds an `AVERAGE` formula: the mean
of the numeric cells in the referenced range. -/
def evalAvgCell (s : Sheet) (r c : Nat) : ℚ :=
  match getCell s r c with
  | Cell.avgFormula col a b => meanQ ((colCells s col a b).filterMap cellNum)
  | _ => 0

/-- Value of the cell at `(r, c)` when it holds the Total Annual Power formula:
`8760/1000*(off*0.15 + sleep*0.45 + longidle*0.1 + shortidle*0.3)` over the
row-2 cells of the recorded columns. -/
def evalTapCell (s : Sheet) (r c : Nat) : ℚ :=
  match getCell s r c with
  | Cell.tapFormula offC slC liC siC =>
    8760 / 1000 * (refValue s 2 offC * (15 / 100) + refValue s 2 slC * (45 / 100)
      + refValue s 2 liC * (1 / 10) + refValue s 2 siC * (3 / 10))
  | _ => 0

/-- The Total Annual Power formula as the claim, the spec (§4.4) and the
source's own docstring (excelHelper.py line 478) state it:
`8760/1000*(off*0.15 + shortidle*0.45 + longidle*0.1 + sleep*0.3)`.
Modelled from the spec for comparison with the formula the code writes. -/
def claimedTotalAnnualPower (off shortidle longidle sleep : ℚ) : ℚ :=
  8760 / 1000 * (off * (15 / 100) + shortidle * (45 / 100) + longidle * (1 / 10)
    + sleep * (3 / 10))

/-! ### Concrete inputs used by the claim checks -/

/-- The numeric entries of column `c` (1-based) of a block of data rows. -/
def columnData (data : List (List Cell)) (c : Nat) : List ℚ :=
  (data.map (fun row => getIdx row (c - 1) Cell.empty)).filterMap cellNum

/-- A sheet in post-`add_averages` shape whose row-2 averages are
`off = 5`, `shortidle = 20`, `longidle = 3`, `sleep = 1`. -/
def c1Sheet : Sheet :=
  [[Cell.str "Averages"],
   [Cell.num 5, Cell.num 20, Cell.num 3, Cell.num 1],
   [Cell.str "off", Cell.str "shortidle", Cell.str "longidle", Cell.str "sleep"],
   [Cell.num 5, Cell.num 20, Cell.num 3, Cell.num 1]]

/-- A workbook holding a recorded test column `A` of three samples in the
target sheet, plus a second sheet `Other`. -/
def c2Workbook : Workbook :=
  [("Power Data", ⟨3, [("A", [some 1, some 2, some 3])]⟩),
   ("Other", ⟨1, [("X", [some 9])]⟩)]

/-- A sheet already carrying the `Averages` marker with data below it. -/
def c5Sheet : Sheet :=
  [[Cell.str "Averages"], [], [Cell.str "h"], [Cell.num 1]]

/-- A populated sheet whose only column is `off` (so `shortidle`, `longidle`
and `sleep` are missing). -/
def c6MissingSheet : Sheet :=
  [[Cell.str "off"], [Cell.num 1]]

/-- A populated sheet with all four required columns but no `Averages`
marker at the top. -/
def c6NoAvgSheet : Sheet :=
  [[Cell.str "off", Cell.str "shortidle", Cell.str "longidle", Cell.str "sleep"],
   [Cell.num 1, Cell.num 2, Cell.num 3, Cell.num 4]]

/-- A one-column sheet with two data rows, used to exercise `add_averages`. -/
def c8Sheet : Sheet :=
  [[Cell.str "off"], [Cell.num 2], [Cell.num 4]]

/-! ### Auxiliary lemmas -/

theorem pyStripList_idem (l : List Char) : pyStripList (pyStripList l) = pyStripList l := by
  unfold pyStripList
  have hpre : (((l.dropWhile isPySpace).rdropWhile isPySpace).dropWhile isPySpace)
      = (l.dropWhile isPySpace).rdropWhile isPySpace := by
    rw [List.dropWhile_eq_self_iff]
    intro hl
    have hpref := List.rdropWhile_prefix isPySpace (l.dropWhile isPySpace)
    have hlen : 0 < (l.dropWhile isPySpace).length :=
      lt_of_lt_of_le hl hpref.length_le
    have hget := List.dropWhile_get_zero_not isPySpace l hlen
    have : ((l.dropWhile isPySpace).rdropWhile isPySpace).get ⟨0, hl⟩
        = (l.dropWhile isPySpace).get ⟨0, hlen⟩ := by
      simp only [List.get_eq_getElem]
      exact hpref.getElem hl
    rw [this]
    exact hget
  rw [hpre, List.rdropWhile_idempotent]

theorem pyStrip_idem (s : String) : pyStrip (pyStrip s) = pyStrip s := by
  unfold pyStrip
  simp [pyStripList_idem]

theorem foldl_append_sampleOf (l : List (Option (List Nat))) (acc : List String) :
    l.foldl (fun acc r =>
        match sampleOf r with
        | some s => acc ++ [s]
        | none => acc) acc = acc ++ l.filterMap sampleOf := by
  induction l generalizing acc with
  | nil => simp
  | cons a l ih =>
    cases h : sampleOf a with
    | none => simp [List.foldl_cons, h, ih]
    | some s => simp [List.foldl_cons, h, ih]

theorem serialFunction_eq_filterMap (qs : List (Option (List Nat))) (ex : RunExit) :
    serialFunction true qs ex = ((processedQueries qs ex).filterMap sampleOf, 1) := by
  simp [serialFunction, foldl_append_sampleOf]

theorem splitOnColon_length (l : List Char) :
    (splitOnColon l).length = l.count ':' + 1 := by
  induction l with
  | nil => simp [splitOnColon]
  | cons c rest ih =>
    by_cases h : c = ':'
    · simp [splitOnColon, h, List.count_cons, ih]
    · simp only [splitOnColon, if_neg h]
      cases hs : splitOnColon rest with
      | nil => simp [hs] at ih
      | cons p ps =>
        simp only [List.length_cons]
        rw [hs] at ih
        simp only [List.length_cons] at ih
        simp [List.count_cons, h, ih]

theorem containsColon_of_split_pair (l : List Char) (p0 p1 : List Char)
    (h : splitOnColon l = [p0, p1]) : containsColon l = true := by
  have hlen : (splitOnColon l).length = 2 := by rw [h]; rfl
  rw [splitOnColon_length] at hlen
  have hcount : l.count ':' = 1 := by omega
  have hmem : (':' : Char) ∈ l := by
    by_contra hn
    rw [List.count_eq_zero_of_not_mem hn] at hcount
    omega
  simp only [containsColon, List.any_eq_true]
  exact ⟨':', hmem, by simp⟩


/-! ### Grid lemmas -/

theorem getIdx_replicate {α : Type} (n i : Nat) (d : α) :
    getIdx (List.replicate n d) i d = d := by
  induction n generalizing i with
  | zero => cases i <;> rfl
  | succ n ih =>
    cases i with
    | zero => rfl
    | succ i => exact ih i

theorem getIdx_padTo {α : Type} (l : List α) (n : Nat) (d : α) (i : Nat) :
    getIdx (padTo l n d) i d = getIdx l i d := by
  induction l generalizing i n with
  | nil => simpa [padTo, getIdx] using getIdx_replicate n i d
  | cons a l ih =>
    have hcount : n - (a :: l).length = n - 1 - l.length := by
      simp only [List.length_cons]
      omega
    have hpad : padTo (a :: l) n d = a :: padTo l (n - 1) d := by
      simp only [padTo, List.cons_append, hcount]
    rw [hpad]
    cases i with
    | zero => rfl
    | succ i => exact ih (n - 1) i

theorem getIdx_set_self {α : Type} (l : List α) (i : Nat) (x d : α) (h : i < l.length) :
    getIdx (l.set i x) i d = x := by
  induction l generalizing i with
  | nil => simp at h
  | cons a l ih =>
    cases i with
    | zero => rfl
    | succ i =>
      simp only [List.set_cons_succ]
      exact ih i (by simpa using h)

theorem getIdx_set_ne {α : Type} (l : List α) (i j : Nat) (x d : α) (h : i ≠ j) :
    getIdx (l.set i x) j d = getIdx l j d := by
  induction l generalizing i j with
  | nil => simp [List.set]
  | cons a l ih =>
    cases i with
    | zero =>
      cases j with
      | zero => exact absurd rfl h
      | succ j => rfl
    | succ i =>
      cases j with
      | zero => rfl
      | succ j =>
        simp only [List.set_cons_succ]
        exact ih i j (by omega)

theorem padTo_length {α : Type} (l : List α) (n : Nat) (d : α) :
    (padTo l n d).length = max l.length n := by
  simp only [padTo, List.length_append, List.length_replicate]
  omega

theorem padTo_drop {α : Type} (l : List α) (n k : Nat) (d : α) (h : n ≤ k) :
    (padTo l n d).drop k = l.drop k := by
  by_cases hl : n ≤ l.length
  · simp only [padTo]
    rw [Nat.sub_eq_zero_of_le hl]
    simp
  · have h1 : (padTo l n d).length ≤ k := by
      rw [padTo_length]; omega
    rw [List.drop_eq_nil_of_le h1, List.drop_eq_nil_of_le (by omega)]

theorem getCell_setCell_self (s : Sheet) (r c : Nat) (v : Cell)
    (hr : 1 ≤ r) (hc : 1 ≤ c) : getCell (setCell s r c v) r c = v := by
  have hrlen : r - 1 < (padTo s r ([] : List Cell)).length := by
    rw [padTo_length]; omega
  have hclen : c - 1 < (padTo (getIdx (padTo s r []) (r - 1) []) c Cell.empty).length := by
    rw [padTo_length]; omega
  simp only [setCell, getCell, setRow]
  rw [getIdx_set_self _ _ _ _ hrlen, getIdx_set_self _ _ _ _ hclen]

theorem getCell_setCell_row_ne (s : Sheet) (r c r' c' : Nat) (v : Cell)
    (hr : 1 ≤ r) (hr' : 1 ≤ r') (hne : r' ≠ r) :
    getCell (setCell s r c v) r' c' = getCell s r' c' := by
  simp only [setCell, getCell]
  rw [getIdx_set_ne (padTo s r []) (r - 1) (r' - 1) _ _ (by omega), getIdx_padTo]

theorem getCell_setCell_col_ne (s : Sheet) (r c c' : Nat) (v : Cell)
    (hr : 1 ≤ r) (hc : 1 ≤ c) (hc' : 1 ≤ c') (hne : c' ≠ c) :
    getCell (setCell s r c v) r c' = getCell s r c' := by
  have hrlen : r - 1 < (padTo s r ([] : List Cell)).length := by
    rw [padTo_length]; omega
  simp only [setCell, getCell, setRow]
  rw [getIdx_set_self _ _ _ _ hrlen,
    getIdx_set_ne (padTo (getIdx (padTo s r []) (r - 1) []) c Cell.empty) (c - 1) (c' - 1) _ _
      (by omega),
    getIdx_padTo, getIdx_padTo]

theorem setCell_drop (s : Sheet) (r c n : Nat) (v : Cell) (hr : 1 ≤ r) (h : r ≤ n) :
    (setCell s r c v).drop n = s.drop n := by
  simp only [setCell]
  rw [List.drop_set_of_lt _ _ (by omega : r - 1 < n), padTo_drop _ _ _ _ h]

theorem setCell_length (s : Sheet) (r c : Nat) (v : Cell) :
    (setCell s r c v).length = max s.length r := by
  simp only [setCell]
  rw [List.length_set, padTo_length]

theorem writeAvgRow_cons (s : Sheet) (x : Nat) (cols : List Nat) (lastRow : Nat) :
    writeAvgRow s (x :: cols) lastRow
      = writeAvgRow (setCell s 2 x (Cell.avgFormula x 4 lastRow)) cols lastRow := rfl

theorem writeAvgRow_getCell_ne_row (s : Sheet) (cols : List Nat) (lastRow r c : Nat)
    (hr : 1 ≤ r) (hne : r ≠ 2) :
    getCell (writeAvgRow s cols lastRow) r c = getCell s r c := by
  induction cols generalizing s with
  | nil => rfl
  | cons x cols ih =>
    rw [writeAvgRow_cons, ih (setCell s 2 x (Cell.avgFormula x 4 lastRow))]
    exact getCell_setCell_row_ne _ _ _ _ _ _ (by omega) hr hne

theorem writeAvgRow_getCell_not_mem (s : Sheet) (cols : List Nat) (lastRow c : Nat)
    (hc : 1 ≤ c) (hall : ∀ x ∈ cols, 1 ≤ x) (hmem : c ∉ cols) :
    getCell (writeAvgRow s cols lastRow) 2 c = getCell s 2 c := by
  induction cols generalizing s with
  | nil => rfl
  | cons x cols ih =>
    rw [writeAvgRow_cons]
    have hx : 1 ≤ x := hall x (by simp)
    have hcx : c ≠ x := by intro h; exact hmem (h ▸ List.mem_cons_self x cols)
    rw [ih (setCell s 2 x (Cell.avgFormula x 4 lastRow))
        (fun y hy => hall y (List.mem_cons_of_mem x hy))
        (fun h => hmem (List.mem_cons_of_mem x h))]
    exact getCell_setCell_col_ne _ _ _ _ _ (by omega) hx hc hcx

theorem writeAvgRow_getCell_mem (s : Sheet) (cols : List Nat) (lastRow c : Nat)
    (hc : 1 ≤ c) (hall : ∀ x ∈ cols, 1 ≤ x) (hmem : c ∈ cols) :
    getCell (writeAvgRow s cols lastRow) 2 c = Cell.avgFormula c 4 lastRow := by
  induction cols generalizing s with
  | nil => simp at hmem
  | cons x cols ih =>
    rw [writeAvgRow_cons]
    by_cases hin : c ∈ cols
    · exact ih (setCell s 2 x (Cell.avgFormula x 4 lastRow))
        (fun y hy => hall y (List.mem_cons_of_mem x hy)) hin
    · have hcx : c = x := by
        rcases List.mem_cons.mp hmem with h | h
        · exact h
        · exact absurd h hin
      subst hcx
      rw [writeAvgRow_getCell_not_mem _ _ _ _ hc
          (fun y hy => hall y (List.mem_cons_of_mem c hy)) hin]
      exact getCell_setCell_self _ _ _ _ (by omega) hc

theorem writeAvgRow_drop (s : Sheet) (cols : List Nat) (lastRow n : Nat) (h : 2 ≤ n) :
    (writeAvgRow s cols lastRow).drop n = s.drop n := by
  induction cols generalizing s with
  | nil => rfl
  | cons x cols ih =>
    rw [writeAvgRow_cons, ih (setCell s 2 x (Cell.avgFormula x 4 lastRow)),
      setCell_drop _ _ _ _ _ (by omega) h]

theorem writeAvgRow_length (s : Sheet) (cols : List Nat) (lastRow : Nat) (h : 2 ≤ s.length) :
    (writeAvgRow s cols lastRow).length = s.length := by
  induction cols generalizing s with
  | nil => rfl
  | cons x cols ih =>
    rw [writeAvgRow_cons,
      ih (setCell s 2 x (Cell.avgFormula x 4 lastRow)) (by rw [setCell_length]; omega),
      setCell_length]
    omega

/-! ### Claim C9: `parse_time_value` -/

/-- Claim C9: `parse_time_value` returns the value itself as a float for int and
float inputs; `M + S/60` for a string splitting on `':'` into exactly two
integer-parseable parts; and 0 with a warning for every other input — strings
without a colon, strings not splitting into exactly two parts, strings with
non-integer parts, and non-numeric non-string values. -/
theorem parse_time_value_characterization :
    (∀ n : Int, parse_time_value (TimeValue.int n) = ((n : ℚ), false))
    ∧ (∀ q : ℚ, parse_time_value (TimeValue.float q) = (q, false))
    ∧ (∀ (s : String) (p0 p1 : List Char) (m sec : Int),
        splitOnColon s.data = [p0, p1] →
        parsePyInt p0 = some m → parsePyInt p1 = some sec →
        parse_time_value (TimeValue.str s) = ((m : ℚ) + (sec : ℚ) / 60, false))
    ∧ (∀ s : String, containsColon s.data = false →
        parse_time_value (TimeValue.str s) = (0, true))
    ∧ (∀ s : String, (splitOnColon s.data).length ≠ 2 →
        parse_time_value (TimeValue.str s) = (0, true))
    ∧ (∀ (s : String) (p0 p1 : List Char), splitOnColon s.data = [p0, p1] →
        parsePyInt p0 = none ∨ parsePyInt p1 = none →
        parse_time_value (TimeValue.str s) = (0, true))
    ∧ parse_time_value TimeValue.other = (0, true) := by
  refine ⟨fun n => rfl, fun q => rfl, ?_, ?_, ?_, ?_, rfl⟩
  · intro s p0 p1 m sec hsplit hm hsec
    have hc := containsColon_of_split_pair s.data p0 p1 hsplit
    simp [parse_time_value, hc, hsplit, hm, hsec]
  · intro s hc
    simp [parse_time_value, hc]
  · intro s hlen
    by_cases hc : containsColon s.data
    · rcases hs : splitOnColon s.data with _ | ⟨a, _ | ⟨b, _ | ⟨c, rest⟩⟩⟩
      · simp [parse_time_value, hc, hs]
      · simp [parse_time_value, hc, hs]
      · rw [hs] at hlen; simp at hlen
      · simp [parse_time_value, hc, hs]
    · simp [parse_time_value, hc]
  · intro s p0 p1 hsplit hbad
    have hc := containsColon_of_split_pair s.data p0 p1 hsplit
    rcases hbad with h0 | h1
    · cases hp1 : parsePyInt p1 <;> simp [parse_time_value, hc, hsplit, h0, hp1]
    · cases hp0 : parsePyInt p0 <;> simp [parse_time_value, hc, hsplit, hp0, h1]

/-- Witness for C9: concrete instances of each hypothesis-guarded case. -/
theorem parse_time_value_characterization_witness :
    parse_time_value (TimeValue.str "1:30") = ((1 : ℚ) + (30 : ℚ) / 60, false)
    ∧ parse_time_value (TimeValue.str "90") = (0, true)
    ∧ parse_time_value (TimeValue.str "1:2:3") = (0, true)
    ∧ parse_time_value (TimeValue.str "a:b") = (0, true) :=
  ⟨parse_time_value_characterization.2.2.1 "1:30" ['1'] ['3', '0'] 1 30
      (by decide) (by decide) (by decide),
   parse_time_value_characterization.2.2.2.1 "90" (by decide),
   parse_time_value_characterization.2.2.2.2.1 "1:2:3" (by decide),
   parse_time_value_characterization.2.2.2.2.2.1 "a:b" ['a'] ['b'] (by decide)
     (Or.inl (by decide))⟩

/-! ### Claim C4: the Scheduler's per-test guard -/

/-- Counterexample for C4: a test entry with a name and a duration but no
start-offset field is not run — `shouldRunTest` is `false`, so the entry is
skipped with the missing-configuration warning instead of starting
immediately. -/
theorem shouldRunTest_missing_start_not_run :
    shouldRunTest (some "Test A") none (some (TimeValue.int 1)) = false := by decide

/-- Claim C4 (amended): the Scheduler runs a test entry exactly when the name
is present and non-empty, the start-offset field is present, and the duration
field is present and parses to a non-zero value; an entry missing any of the
three fields — including one missing only the start offset — is skipped with
a warning. -/
theorem shouldRunTest_characterization (h : Option String) (st du : Option TimeValue) :
    shouldRunTest h st du = true ↔
      ((∃ name, h = some name ∧ name ≠ "") ∧ st.isSome = true
        ∧ ∃ d, du = some d ∧ (parse_time_value d).1 ≠ 0) := by
  cases h <;> cases st <;> cases du <;> simp [shouldRunTest]

/-! ### Claim C7: the Sampler's failure behaviour -/

/-- Claim C7: with the device opened, a run all of whose queries fail returns
the empty sample list and closes the channel exactly once; on every exit path
(normal, interrupt, unexpected error) the channel is closed exactly once; and
an interrupted run still returns exactly the samples collected from the
iterations it completed. -/
theorem serialFunction_failure_safe :
    (∀ (qs : List (Option (List Nat))) (ex : RunExit),
        (∀ r ∈ qs, readSerialData r = none) → serialFunction true qs ex = ([], 1))
    ∧ (∀ (qs : List (Option (List Nat))) (ex : RunExit),
        (serialFunction true qs ex).2 = 1)
    ∧ (∀ (qs : List (Option (List Nat))) (k : Nat),
        (serialFunction true qs (RunExit.interrupted k)).1
          = (serialFunction true (qs.take k) RunExit.normal).1) := by
  refine ⟨?_, ?_, ?_⟩
  · intro qs ex hfail
    rw [serialFunction_eq_filterMap]
    have : (processedQueries qs ex).filterMap sampleOf = [] := by
      rw [List.filterMap_eq_nil_iff]
      intro r hr
      have hrq : r ∈ qs := by
        cases ex with
        | normal => exact hr
        | interrupted k => exact List.take_subset k qs hr
        | errored k => exact List.take_subset k qs hr
      simp [sampleOf, hfail r hrq]
    rw [this]
  · intro qs ex
    rw [serialFunction_eq_filterMap]
  · intro qs k
    rw [serialFunction_eq_filterMap, serialFunction_eq_filterMap]
    rfl

/-- Witness for C7: a run of one communication error and one empty read. -/
theorem serialFunction_failure_safe_witness :
    serialFunction true [none, some []] RunExit.normal = ([], 1) :=
  serialFunction_failure_safe.1 [none, some []] RunExit.normal (by decide)

/-! ### Claim C10: empty reads are failures; samples are non-empty and trimmed -/

/-- Claim C10: a zero-byte device response makes `SerialDevice.query` return the
failure triple, indistinguishable from a communication error at the Sampler
boundary, so it can never enter the sample list; consequently every sample
`serialFunction` returns is a non-empty string fixed by stripping. -/
theorem query_empty_read_is_failure :
    SerialDevice_query [] = none
    ∧ (∀ (qs : List (Option (List Nat))) (ex : RunExit) (s : String),
        s ∈ (serialFunction true qs ex).1 → s ≠ "" ∧ pyStrip s = s) := by
  refine ⟨rfl, ?_⟩
  intro qs ex s hmem
  rw [serialFunction_eq_filterMap] at hmem
  simp only [List.mem_filterMap] at hmem
  obtain ⟨r, _, hr⟩ := hmem
  cases r with
  | none => simp [sampleOf, readSerialData] at hr
  | some bs =>
    cases bs with
    | nil => simp [sampleOf, readSerialData, SerialDevice_query] at hr
    | cons b bt =>
      have hq : sampleOf (some (b :: bt)) =
          if pyStrip (decodeBytes (b :: bt)) ≠ "" then some (pyStrip (decodeBytes (b :: bt)))
          else none := rfl
      rw [hq] at hr
      by_cases hx : pyStrip (decodeBytes (b :: bt)) ≠ ""
      · rw [if_pos hx] at hr
        have hs := Option.some.inj hr
        subst hs
        exact ⟨hx, pyStrip_idem _⟩
      · rw [if_neg hx] at hr
        exact absurd hr (by simp)

/-- Witness for C10: the sample decoded from the bytes of `"10"`. -/
theorem query_empty_read_is_failure_witness :
    "10" ≠ "" ∧ pyStrip "10" = "10" :=
  query_empty_read_is_failure.2 [some [49, 48]] RunExit.normal "10" (by decide)

/-! ### Claim C3: re-running a named test replaces its column -/

/-- Claim C3: writing samples `S1` under a test name into a fresh workbook and
then writing `S2` under the same name — whether `S2` is shorter, equal, or
longer — succeeds both times and leaves the sheet with exactly one column
bearing that name, holding precisely the store's numeric coercion of `S2`. -/
theorem write_test_row_rerun_replaces (hdr sheet : String) (S1 S2 : List Sample) :
    (write_test_row_to_excel hdr S1 none sheet).2 = true
    ∧ (write_test_row_to_excel hdr S2
        (some (write_test_row_to_excel hdr S1 none sheet).1) sheet).2 = true
    ∧ (write_test_row_to_excel hdr S2
        (some (write_test_row_to_excel hdr S1 none sheet).1) sheet).1
      = [(sheet, ⟨S2.length, [(hdr, S2.map toNumeric)]⟩)] := by
  have h1 : (write_test_row_to_excel hdr S1 none sheet).1
      = [(sheet, ⟨S1.length, [(hdr, S1.map toNumeric)]⟩)] := by
    simp [write_test_row_to_excel]
  refine ⟨rfl, rfl, ?_⟩
  rw [h1]
  by_cases hlt : S1.length < S2.length
  · have hn : S1.length + (S2.length - S1.length) = S2.length := by omega
    simp [write_test_row_to_excel, lookupSheet, extendRows, setColumn, hlt, hn]
  · by_cases heq : S2.length = S1.length
    · simp [write_test_row_to_excel, lookupSheet, setColumn, hlt, heq]
    · simp [write_test_row_to_excel, lookupSheet, setColumn, hlt, heq]

/-! ### Claim C2: what a write does to the rest of the workbook -/

/-- Claim C2 fails on the code: writing test `B` with two samples into a
workbook whose target sheet holds a three-row column `A` (and which has a
second sheet `Other`) reports success but returns a workbook containing only
the target sheet with only column `B` — the pandas length-mismatch
`ValueError` is handled as if the sheet were missing, so column `A` is
dropped, and the `mode='w'` rewrite drops sheet `Other`. -/
theorem write_test_row_drops_other_content :
    write_test_row_to_excel "B" [Sample.num 5, Sample.num 6] (some c2Workbook) "Power Data"
      = ([("Power Data", ⟨2, [("B", [some 5, some 6])]⟩)], true)
    ∧ (∀ p ∈ (write_test_row_to_excel "B" [Sample.num 5, Sample.num 6] (some c2Workbook)
        "Power Data").1, p.1 ≠ "Other")
    ∧ (∀ p ∈ (write_test_row_to_excel "B" [Sample.num 5, Sample.num 6] (some c2Workbook)
        "Power Data").1, ∀ col ∈ p.2.cols, col.1 ≠ "A") := by
  refine ⟨by decide, by decide, by decide⟩

/-! ### Claim C1: the Total Annual Power formula -/

/-- Claim C1 fails on the code: on a sheet with row-2 averages `off = 5`,
`shortidle = 20`, `longidle = 3`, `sleep = 1`, `totalAnnualPower` succeeds and
writes a formula pairing `sleep` with the weight 0.45 and `shortidle` with
0.3 (source line 567), which evaluates to 65.7 — not the 90.666 the claim,
the spec, and the function's own docstring give for
`8760/1000*(off*0.15 + shortidle*0.45 + longidle*0.1 + sleep*0.3)`. -/
theorem totalAnnualPower_weight_swap :
    (totalAnnualPower c1Sheet).2 = TapResult.ok
    ∧ getCell (totalAnnualPower c1Sheet).1 2 5 = Cell.tapFormula 1 4 3 2
    ∧ evalTapCell (totalAnnualPower c1Sheet).1 2 5 = 657 / 10
    ∧ claimedTotalAnnualPower 5 20 3 1 = 90666 / 1000
    ∧ evalTapCell (totalAnnualPower c1Sheet).1 2 5 ≠ claimedTotalAnnualPower 5 20 3 1 := by
  have h : getCell (totalAnnualPower c1Sheet).1 2 5 = Cell.tapFormula 1 4 3 2 := by decide
  have h1 : refValue (totalAnnualPower c1Sheet).1 2 1 = 5 := by decide
  have h2 : refValue (totalAnnualPower c1Sheet).1 2 4 = 1 := by decide
  have h3 : refValue (totalAnnualPower c1Sheet).1 2 3 = 3 := by decide
  have h4 : refValue (totalAnnualPower c1Sheet).1 2 2 = 20 := by decide
  have hev : evalTapCell (totalAnnualPower c1Sheet).1 2 5 = 657 / 10 := by
    simp only [evalTapCell, h]
    rw [h1, h2, h3, h4]
    norm_num
  have hcl : claimedTotalAnnualPower 5 20 3 1 = 90666 / 1000 := by
    simp only [claimedTotalAnnualPower]
    norm_num
  refine ⟨by decide, h, hev, hcl, ?_⟩
  rw [hev, hcl]
  norm_num

/-! ### More grid lemmas for the Report Calculator claims -/

theorem getIdx_drop {α : Type} (l : List α) (n i : Nat) (d : α) :
    getIdx (l.drop n) i d = getIdx l (n + i) d := by
  induction n generalizing l with
  | zero => simp [List.drop_zero]
  | succ n ih =>
    cases l with
    | nil => simp [getIdx]
    | cons a t =>
      rw [List.drop_succ_cons, ih t]
      have h : n + 1 + i = n + i + 1 := by omega
      rw [h]
      rfl

theorem range_map_getIdx {α : Type} (l : List α) (d : α) :
    (List.range l.length).map (fun i => getIdx l i d) = l := by
  induction l with
  | nil => simp
  | cons a t ih =>
    rw [List.length_cons, List.range_succ_eq_map]
    simp only [List.map_cons, List.map_map]
    have hc : ((fun i => getIdx (a :: t) i d) ∘ Nat.succ) = fun i => getIdx t i d := by
      funext i
      rfl
    rw [hc, ih]
    rfl

theorem exists_cons_cons {α : Type} (l : List α) (h : 2 ≤ l.length) :
    ∃ a b t, l = a :: b :: t := by
  cases l with
  | nil => simp at h
  | cons a t =>
    cases t with
    | nil => simp at h
    | cons b t' => exact ⟨a, b, t', rfl⟩

theorem colCells_shifted (x y hdr : List Cell) (data : List (List Cell)) (c : Nat) :
    colCells (x :: y :: hdr :: data) c 4 (data.length + 3)
      = data.map (fun row => getIdx row (c - 1) Cell.empty) := by
  unfold colCells
  have h : data.length + 3 + 1 - 4 = data.length := by omega
  rw [h]
  have hp : ∀ i ∈ List.range data.length,
      getCell (x :: y :: hdr :: data) (4 + i) c
        = getIdx (getIdx data i []) (c - 1) Cell.empty := by
    intro i _
    simp only [getCell]
    have h4 : 4 + i - 1 = i + 1 + 1 + 1 := by omega
    rw [h4]
    rfl
  rw [List.map_congr_left hp]
  have hm : (List.range data.length).map (fun i => getIdx (getIdx data i []) (c - 1) Cell.empty)
      = ((List.range data.length).map (fun i => getIdx data i [])).map
          (fun row => getIdx row (c - 1) Cell.empty) := by
    rw [List.map_map]
    rfl
  rw [hm, range_map_getIdx]

/-! ### Claim C5: `add_averages` is idempotent -/

/-- Claim C5: on a populated sheet whose top-left cell already holds the
`Averages` marker, `add_averages` changes nothing and reports success; and
applying `add_averages` twice to any sheet leaves the same workbook state as
applying it once (no duplicate header rows are ever inserted). -/
theorem add_averages_idempotent :
    (∀ s : Sheet, getCell s 1 1 = Cell.str "Averages" → (loadSheet s).isSome = true →
        add_averages s = (s, true))
    ∧ (∀ s : Sheet, (add_averages (add_averages s).1).1 = (add_averages s).1) := by
  have hshort : ∀ s : Sheet, getCell s 1 1 = Cell.str "Averages" →
      (loadSheet s).isSome = true → add_averages s = (s, true) := by
    intro s hm hsome
    rw [Option.isSome_iff_exists] at hsome
    obtain ⟨lr, hlr⟩ := hsome
    simp [add_averages, hlr, hm]
  refine ⟨hshort, ?_⟩
  intro s
  cases hload : loadSheet s with
  | none => simp [add_averages, hload]
  | some lr =>
    by_cases hm : getCell s 1 1 = Cell.str "Averages"
    · simp [add_averages, hload, hm]
    · have hstep : add_averages s =
          (writeAvgRow (setCell ([[], []] ++ s) 1 1 (Cell.str "Averages"))
            ((List.range lr.headerRow.length).map (fun i => i + 1))
            (lr.dataRows.length + 1 + 2), true) := by
        simp [add_averages, hload, hm]
      have hfacts : ¬(getIdx s 0 [] = [] ∨ s.drop 1 = ([] : List (List Cell))) := by
        simp only [loadSheet, hm, if_neg, if_false] at hload
        split at hload
        · exact absurd hload (by simp)
        · assumption
      have hm2 : getCell (add_averages s).1 1 1 = Cell.str "Averages" := by
        rw [hstep]
        rw [writeAvgRow_getCell_ne_row _ _ _ _ _ (by omega) (by omega)]
        exact getCell_setCell_self _ _ _ _ (by omega) (by omega)
      have hdrop2 : (add_averages s).1.drop 2 = s := by
        rw [hstep]
        rw [writeAvgRow_drop _ _ _ _ (by omega), setCell_drop _ _ _ _ _ (by omega) (by omega)]
        rfl
      have hhdr2 : getIdx (add_averages s).1 2 [] = getIdx s 0 [] := by
        have := getIdx_drop (add_averages s).1 2 0 ([] : List Cell)
        rw [hdrop2] at this
        simpa using this.symm
      have hdata2 : (add_averages s).1.drop 3 = s.drop 1 := by
        have : ((add_averages s).1.drop 2).drop 1 = s.drop 1 := by rw [hdrop2]
        rwa [List.drop_drop] at this
      have hload2 : (loadSheet (add_averages s).1).isSome = true := by
        simp only [loadSheet, hm2, if_pos, if_true, hhdr2, hdata2]
        rw [if_neg hfacts]
        rfl
      rw [hshort (add_averages s).1 hm2 hload2]

/-- Witness for C5: the marked populated sheet `c5Sheet` is left unchanged with
success reported. -/
theorem add_averages_idempotent_witness : add_averages c5Sheet = (c5Sheet, true) :=
  add_averages_idempotent.1 c5Sheet (by decide) (by decide)

/-! ### Claim C6: `totalAnnualPower` fails atomically -/

/-- Claim C6: every non-`ok` outcome of `totalAnnualPower` leaves the sheet
untouched (nothing is saved on a failure path); on a loaded sheet lacking the
`sleep` column, the call fails reporting exactly the missing required columns,
`sleep` among them; and on a loaded sheet with all four columns but no
`Averages` marker at the top, the call fails with the averages-first
precondition error. -/
theorem totalAnnualPower_atomic_failure :
    (∀ s : Sheet, (totalAnnualPower s).2 ≠ TapResult.ok → (totalAnnualPower s).1 = s)
    ∧ (∀ (s : Sheet) (lr : LoadResult), loadSheet s = some lr →
        findColPos lr.headerRow "sleep" = none →
        (totalAnnualPower s).2 = TapResult.missingCols
            (tapNeeded.filter (fun n => (findColPos lr.headerRow n).isNone))
        ∧ "sleep" ∈ tapNeeded.filter (fun n => (findColPos lr.headerRow n).isNone))
    ∧ (∀ (s : Sheet) (lr : LoadResult), loadSheet s = some lr →
        (findColPos lr.headerRow "off").isSome = true →
        (findColPos lr.headerRow "shortidle").isSome = true →
        (findColPos lr.headerRow "longidle").isSome = true →
        (findColPos lr.headerRow "sleep").isSome = true →
        getCell s 1 1 ≠ Cell.str "Averages" →
        (totalAnnualPower s).2 = TapResult.noAverages) := by
  refine ⟨?_, ?_, ?_⟩
  · intro s hne
    cases hload : loadSheet s with
    | none => simp [totalAnnualPower, hload]
    | some lr =>
      cases h1 : findColPos lr.headerRow "off" with
      | none => simp [totalAnnualPower, hload, h1]
      | some o =>
        cases h2 : findColPos lr.headerRow "shortidle" with
        | none => simp [totalAnnualPower, hload, h1, h2]
        | some si =>
          cases h3 : findColPos lr.headerRow "longidle" with
          | none => simp [totalAnnualPower, hload, h1, h2, h3]
          | some li =>
            cases h4 : findColPos lr.headerRow "sleep" with
            | none => simp [totalAnnualPower, hload, h1, h2, h3, h4]
            | some sl =>
              by_cases hm : getCell s 1 1 = Cell.str "Averages"
              · exfalso
                apply hne
                simp [totalAnnualPower, hload, h1, h2, h3, h4, hm]
              · simp [totalAnnualPower, hload, h1, h2, h3, h4, hm]
  · intro s lr hload hsleep
    constructor
    · cases h1 : findColPos lr.headerRow "off" <;>
        cases h2 : findColPos lr.headerRow "shortidle" <;>
          cases h3 : findColPos lr.headerRow "longidle" <;>
            simp [totalAnnualPower, hload, h1, h2, h3, hsleep]
    · rw [List.mem_filter]
      refine ⟨by decide, ?_⟩
      simp [hsleep]
  · intro s lr hload h1 h2 h3 h4 hm
    rw [Option.isSome_iff_exists] at h1 h2 h3 h4
    obtain ⟨o, h1⟩ := h1
    obtain ⟨si, h2⟩ := h2
    obtain ⟨li, h3⟩ := h3
    obtain ⟨sl, h4⟩ := h4
    simp [totalAnnualPower, hload, h1, h2, h3, h4, hm]

/-- Witness for C6: the sheet missing `sleep` fails atomically naming it, and
the unmarked four-column sheet fails with the precondition error, both leaving
the sheet unchanged. -/
theorem totalAnnualPower_atomic_failure_witness :
    (totalAnnualPower c6MissingSheet).2
        = TapResult.missingCols ["shortidle", "longidle", "sleep"]
    ∧ (totalAnnualPower c6MissingSheet).1 = c6MissingSheet
    ∧ (totalAnnualPower c6NoAvgSheet).2 = TapResult.noAverages
    ∧ (totalAnnualPower c6NoAvgSheet).1 = c6NoAvgSheet := by
  refine ⟨?_, ?_, ?_, ?_⟩
  · have h := (totalAnnualPower_atomic_failure.2.1 c6MissingSheet
      ⟨[Cell.str "off"], [[Cell.num 1]]⟩ (by decide) (by decide)).1
    rw [h]
    decide
  · exact totalAnnualPower_atomic_failure.1 c6MissingSheet (by decide)
  · exact totalAnnualPower_atomic_failure.2.2 c6NoAvgSheet
      ⟨[Cell.str "off", Cell.str "shortidle", Cell.str "longidle", Cell.str "sleep"],
        [[Cell.num 1, Cell.num 2, Cell.num 3, Cell.num 4]]⟩
      (by decide) (by decide) (by decide) (by decide) (by decide) (by decide)
  · exact totalAnnualPower_atomic_failure.1 c6NoAvgSheet (by decide)

/-! ### Claim C8: the layout `add_averages` produces -/

/-- Claim C8: on a populated sheet with header row and `N` data rows and no
pre-existing `Averages` marker, a successful `add_averages` inserts exactly
two rows at the top, keeps the column headers (now row 3) and the data (now
rows 4 through `N + 3`) intact, and writes into row 2 of every data column an
`AVERAGE` formula over rows 4 to `N + 3` of that column, whose value is the
arithmetic mean of the numeric entries of that column's original data. -/
theorem add_averages_layout (hdr : List Cell) (data : List (List Cell))
    (hhdr : hdr ≠ []) (hdata : data ≠ [])
    (hmark : getCell (hdr :: data) 1 1 ≠ Cell.str "Averages") :
    (add_averages (hdr :: data)).2 = true
    ∧ (add_averages (hdr :: data)).1.length = (hdr :: data).length + 2
    ∧ (add_averages (hdr :: data)).1.drop 2 = hdr :: data
    ∧ (∀ c, 1 ≤ c → c ≤ hdr.length →
        getCell (add_averages (hdr :: data)).1 2 c = Cell.avgFormula c 4 (data.length + 3)
        ∧ evalAvgCell (add_averages (hdr :: data)).1 2 c = meanQ (columnData data c)) := by
  have hload : loadSheet (hdr :: data) = some ⟨hdr, data⟩ := by
    have h0 : getIdx (hdr :: data) 0 ([] : List Cell) = hdr := rfl
    have h1 : (hdr :: data).drop 1 = data := rfl
    simp [loadSheet, hmark, h0, h1, hhdr, hdata]
  have hstep : add_averages (hdr :: data)
      = (writeAvgRow (setCell ([[], []] ++ (hdr :: data)) 1 1 (Cell.str "Averages"))
          ((List.range hdr.length).map (fun i => i + 1)) (data.length + 1 + 2), true) := by
    simp [add_averages, hload, hmark]
  have hall : ∀ x ∈ (List.range hdr.length).map (fun i => i + 1), 1 ≤ x := by
    intro x hx
    rw [List.mem_map] at hx
    obtain ⟨i, _, hi⟩ := hx
    omega
  have hlen : (add_averages (hdr :: data)).1.length = (hdr :: data).length + 2 := by
    rw [hstep]
    rw [writeAvgRow_length _ _ _ (by rw [setCell_length]; simp)]
    rw [setCell_length]
    simp
  have hdrop : (add_averages (hdr :: data)).1.drop 2 = hdr :: data := by
    rw [hstep]
    rw [writeAvgRow_drop _ _ _ _ (by omega), setCell_drop _ _ _ _ _ (by omega) (by omega)]
    rfl
  refine ⟨by rw [hstep], hlen, hdrop, ?_⟩
  intro c hc1 hc2
  have hmem : c ∈ (List.range hdr.length).map (fun i => i + 1) := by
    rw [List.mem_map]
    exact ⟨c - 1, List.mem_range.mpr (by omega), by omega⟩
  have hcell : getCell (add_averages (hdr :: data)).1 2 c
      = Cell.avgFormula c 4 (data.length + 3) := by
    rw [hstep]
    exact writeAvgRow_getCell_mem _ _ _ _ hc1 hall hmem
  refine ⟨hcell, ?_⟩
  obtain ⟨a, b, rest, hS⟩ := exists_cons_cons (add_averages (hdr :: data)).1 (by omega)
  have hrest : rest = hdr :: data := by
    rw [hS] at hdrop
    exact hdrop
  rw [hS, hrest] at hcell ⊢
  simp only [evalAvgCell, hcell]
  rw [colCells_shifted]
  rfl

/-- Witness for C8: on the one-column sheet `c8Sheet` with data `[2, 4]`, the
run succeeds, two rows are inserted, the original content sits at rows 3-5,
and the row-2 cell averages rows 4-5 to the mean of the data. -/
theorem add_averages_layout_witness :
    (add_averages c8Sheet).2 = true
    ∧ (add_averages c8Sheet).1.length = c8Sheet.length + 2
    ∧ (add_averages c8Sheet).1.drop 2 = c8Sheet
    ∧ getCell (add_averages c8Sheet).1 2 1 = Cell.avgFormula 1 4 5
    ∧ evalAvgCell (add_averages c8Sheet).1 2 1
        = meanQ (columnData [[Cell.num 2], [Cell.num 4]] 1) := by
  have h := add_averages_layout [Cell.str "off"] [[Cell.num 2], [Cell.num 4]]
    (by decide) (by decide) (by decide)
  have hc := h.2.2.2 1 (by decide) (by decide)
  exact ⟨h.1, h.2.1, h.2.2.1, hc.1, hc.2⟩
